import Mathlib

/-!
Verification of the command-orchestration layer in `xskew/tools.py`.

The module is a thin wrapper around `subprocess.run`: `run_command`
executes an external program given as a token list, captures merged
stdout/stderr, logs, and inspects the return code; tool-specific
wrappers (fasterq_dump, star_nowasp, samtools_*, gatk_*) build fixed
argument vectors and delegate to it inside a
`try/except NonZeroReturnException` block, `star_nowasp` additionally
running a `finally` cleanup with `shutil.rmtree`.

The embedding is parameterised by an operating-system oracle
`os : List String → SpawnOutcome` giving, for each argument vector,
what `subprocess.run` would observe: either a completed child process
(return code plus the single merged output text) or a launch failure
(`FileNotFoundError`, the executable was not found on the search
path).  Logging is modelled as an explicit list of emitted messages,
Python exceptions as an `Except` result, and the filesystem (for the
cleanup step) as the list of existing directories.
-/

/-- Severity levels of the Python `logging` calls used in the source. -/
inductive LogLevel where
  | debug
  | info
  | warning
  | error
deriving DecidableEq, Repr

/-- One emitted log record: severity and message text. -/
structure LogMsg where
  level : LogLevel
  msg : String
deriving DecidableEq, Repr

/-- Python exceptions that can cross the boundaries modelled here.
`fileNotFound` is `FileNotFoundError` (raised by `subprocess.run` when
the executable is missing, and by `shutil.rmtree` on a missing
directory); `nonZeroReturn` is the module's own
`NonZeroReturnException` (tools.py lines 7-10); `nameError` models a
`NameError` such as the reference to the never-imported `traceback`
module inside the handlers. -/
inductive PyExc where
  | fileNotFound
  | nonZeroReturn
  | nameError (n : String)
deriving DecidableEq, Repr

/-- What the operating system does when asked to spawn a given argument
vector: either the child runs to completion with a return code and the
merged stdout+stderr text, or the launch itself fails because the first
token is not a resolvable executable. -/
inductive SpawnOutcome where
  | completed (returncode : Int) (output : String)
  | launchFailure
deriving DecidableEq, Repr

/-- The value `subprocess.run` returns on completion, restricted to the
fields tools.py reads.  With `stdout=PIPE, stderr=STDOUT, text=True`
the `stdout` field holds the merged text and the `stderr` field is
`None` (stderr was redirected, not captured separately). -/
structure CompletedProcess where
  returncode : Int
  stdout : Option String
  stderr : Option String
deriving DecidableEq, Repr

/-- The triple `(cp.stderr, cp.stdout, cp.returncode)` returned by
`run_command` on the success path (tools.py line 50). -/
abbrev ResultTriple := Option String × Option String × Int

/-- Decidable equality for `Except`, needed so that concrete witness
statements about `run_command` outcomes can be settled by `decide`. -/
instance exceptDecEq {ε α : Type} [DecidableEq ε] [DecidableEq α] :
    DecidableEq (Except ε α) := fun x y =>
  match x, y with
  | Except.ok a, Except.ok b =>
      if h : a = b then isTrue (by rw [h])
      else isFalse (by intro hh; cases hh; exact h rfl)
  | Except.ok _, Except.error _ => isFalse (by intro hh; cases hh)
  | Except.error _, Except.ok _ => isFalse (by intro hh; cases hh)
  | Except.error e, Except.error f =>
      if h : e = f then isTrue (by rw [h])
      else isFalse (by intro hh; cases hh; exact h rfl)

/-- Observable effects of one `run_command` call: the Python-level
outcome (a raised exception, or the returned value — `none` models the
implicit `None` return of the non-zero branch), the log records in
emission order, and the argument vectors actually handed to
`subprocess.run`. -/
structure RunResult where
  result : Except PyExc (Option ResultTriple)
  logs : List LogMsg
  spawnCalls : List (List String)
deriving DecidableEq, Repr

/-- Embedding of `run_command` (tools.py lines 27-52).
`os` is the spawn oracle; `elapsedSeconds` stands for the wall-clock
difference `(end - start).seconds`, which the source uses only inside a
debug log message.  The source joins the tokens with spaces purely for
log text (line 32), calls `subprocess.run(cmd, text=True, stdout=PIPE,
stderr=STDOUT)` on the discrete list (lines 35-38), logs the outcome,
and branches on `str(cp.returncode) == '0'` (line 48): the zero branch
logs success and returns `(cp.stderr, cp.stdout, cp.returncode)`, the
non-zero branch logs a warning and falls through, returning `None`. -/
def run_command (os : List String → SpawnOutcome) (elapsedSeconds : Nat)
    (cmd : List String) : RunResult :=
  let cmdstr := String.intercalate " " cmd
  let l0 : List LogMsg := [⟨LogLevel.info, s!"running command: {cmdstr} "⟩]
  match os cmd with
  | SpawnOutcome.launchFailure =>
      ⟨Except.error PyExc.fileNotFound, l0, [cmd]⟩
  | SpawnOutcome.completed rc out =>
      let cp : CompletedProcess := ⟨rc, some out, none⟩
      let l1 := l0 ++
        [⟨LogLevel.debug,
          s!"ran cmd=\x27{cmdstr}\x27 return={rc} {elapsedSeconds} seconds."⟩]
      let l2 := l1 ++ (match cp.stderr with
        | some e => [⟨LogLevel.debug, s!"got stderr: {e}"⟩]
        | none => [])
      let l3 := l2 ++ (match cp.stdout with
        | some o => [⟨LogLevel.debug, s!"got stdout: {o}"⟩]
        | none => [])
      if toString cp.returncode = "0" then
        ⟨Except.ok (some (cp.stderr, cp.stdout, cp.returncode)),
         l3 ++ [⟨LogLevel.info, s!"successfully ran {cmdstr}"⟩], [cmd]⟩
      else
        ⟨Except.ok none,
         l3 ++ [⟨LogLevel.warning, s!"non-zero return code for cmd {cmdstr}"⟩],
         [cmd]⟩

/-- Observable effects of one tool-specific wrapper call
(`try: run_command(cmd) / except NonZeroReturnException: ...`).
`exceptBranchRan` records whether the `except` handler body executed. -/
structure WrapResult where
  result : Except PyExc Unit
  logs : List LogMsg
  spawnCalls : List (List String)
  exceptBranchRan : Bool
deriving DecidableEq, Repr

/-- Embedding of the `try: run_command(cmd) except NonZeroReturnException
as nzre: logging.error(...)` pattern shared by every wrapper in
tools.py.  A normal return (triple or `None`) leaves the `try` normally;
a raised `NonZeroReturnException` would enter the handler, which first
logs `handlerMsg` at error level and then evaluates
`traceback.format_exc` — but `traceback` is never imported in tools.py,
so the handler would itself raise `NameError`; any other exception
propagates uncaught. -/
def tryRunCatchNZRE (os : List String → SpawnOutcome) (elapsedSeconds : Nat)
    (cmd : List String) (handlerMsg : String) : WrapResult :=
  let r := run_command os elapsedSeconds cmd
  match r.result with
  | Except.ok _ => ⟨Except.ok (), r.logs, r.spawnCalls, false⟩
  | Except.error PyExc.nonZeroReturn =>
      ⟨Except.error (PyExc.nameError "traceback"),
       r.logs ++ [⟨LogLevel.error, handlerMsg⟩], r.spawnCalls, true⟩
  | Except.error e => ⟨Except.error e, r.logs, r.spawnCalls, false⟩

/-- Embedding of `fasterq_dump` (tools.py lines 55-70). -/
def fasterq_dump (os : List String → SpawnOutcome) (elapsedSeconds : Nat)
    (infile outdir nthreads tempdir : String) : WrapResult :=
  tryRunCatchNZRE os elapsedSeconds
    ["fasterq-dump", "--split-files", "--include-technical", "--force",
     "--threads", nthreads, "--outdir", outdir, "-t", tempdir,
     "--log-level", "debug", infile]
    s!"problem with {infile}"

/-- Embedding of `samtools_sort` (tools.py lines 96-109); the Python
f-strings `f'\x7bmemory\x7dM'` and `f'\x7bnthreads\x7d'` become string
appends. -/
def samtools_sort (os : List String → SpawnOutcome) (elapsedSeconds : Nat)
    (infile outfile memory nthreads : String) : WrapResult :=
  tryRunCatchNZRE os elapsedSeconds
    ["samtools", "sort", "-m", memory ++ "M", "-o", outfile, "-O", "bam",
     "-@", nthreads, infile]
    s!"problem with {infile}"

/-- Embedding of `samtools_index` (tools.py lines 112-122). -/
def samtools_index (os : List String → SpawnOutcome) (elapsedSeconds : Nat)
    (infile nthreads : String) : WrapResult :=
  tryRunCatchNZRE os elapsedSeconds
    ["samtools", "index", "-@", nthreads, infile]
    s!"problem with {infile}"

/-- Embedding of `samtools_view_region` (tools.py lines 124-135). -/
def samtools_view_region (os : List String → SpawnOutcome) (elapsedSeconds : Nat)
    (infile outfile region : String) : WrapResult :=
  tryRunCatchNZRE os elapsedSeconds
    ["samtools", "view", "-b", infile, "-o", outfile, region]
    s!"problem with {infile}"

/-- Embedding of `samtools_view_quality` (tools.py lines 138-149). -/
def samtools_view_quality (os : List String → SpawnOutcome) (elapsedSeconds : Nat)
    (infile outfile quality : String) : WrapResult :=
  tryRunCatchNZRE os elapsedSeconds
    ["samtools", "view", "-q", quality, "-b", infile, "-o", outfile]
    s!"problem with {infile}"

/-- Embedding of `gatk_arrg` (tools.py lines 151-169). -/
def gatk_arrg (os : List String → SpawnOutcome) (elapsedSeconds : Nat)
    (infile outfile : String) : WrapResult :=
  tryRunCatchNZRE os elapsedSeconds
    ["gatk", "AddOrReplaceReadGroups", "-I", infile, "-O", outfile,
     "-SO", "coordinate", "-RGID", "id", "-RGLB", "library",
     "-RGPL", "platform", "-RGPU", "machine", "-RGSM", "sample"]
    s!"problem with {infile}"

/-- Embedding of `gatk_md` (tools.py lines 171-187). -/
def gatk_md (os : List String → SpawnOutcome) (elapsedSeconds : Nat)
    (infile outfile metrics : String) : WrapResult :=
  tryRunCatchNZRE os elapsedSeconds
    ["gatk", "MarkDuplicates", "-I", infile, "-O", outfile,
     "-CREATE_INDEX", "true", "-VALIDATION_STRINGENCY", "SILENT",
     "-M", metrics]
    s!"problem with {infile}"

/-- Embedding of `gatk_sncr` (tools.py lines 189-202). -/
def gatk_sncr (os : List String → SpawnOutcome) (elapsedSeconds : Nat)
    (infile outfile genome : String) : WrapResult :=
  tryRunCatchNZRE os elapsedSeconds
    ["gatk", "SplitNCigarReads", "-R", genome, "-I", infile, "-O", outfile]
    s!"problem with {infile}"

/-- Embedding of `gatk_htc` (tools.py lines 205-221); the `interval`
parameter is accepted but unused by the source. -/
def gatk_htc (os : List String → SpawnOutcome) (elapsedSeconds : Nat)
    (infile outfile genome interval : String) : WrapResult :=
  tryRunCatchNZRE os elapsedSeconds
    ["gatk", "HaplotypeCaller", "-R", genome, "-I", infile, "-O", outfile,
     "--dont-use-soft-clipped-bases", "-stand-call-conf", "0.0"]
    s!"problem with {infile}"

/-- Embedding of `shutil.rmtree`: removes the directory from the
filesystem (modelled as the list of existing directories), raising
`FileNotFoundError` when the directory does not exist. -/
def rmtree (fs : List String) (path : String) : Except PyExc (List String) :=
  if path ∈ fs then Except.ok (fs.erase path) else Except.error PyExc.fileNotFound

/-- Observable effects of a `star_nowasp` call: outcome, logs, spawn
calls, whether the `except` handler ran, and the filesystem after the
`finally` cleanup. -/
structure StarResult where
  result : Except PyExc Unit
  logs : List LogMsg
  spawnCalls : List (List String)
  exceptBranchRan : Bool
  fs : List String
deriving DecidableEq, Repr

/-- Embedding of the `finally` block of `star_nowasp` (tools.py lines
91-93): `shutil.rmtree` on the two temporary directories `g` then `p`,
threaded over the filesystem.  Per Python semantics the block always
runs; an exception raised inside it replaces any `pending` outcome of
the try/except part, and if it completes normally the pending outcome
stands.  Returns the final outcome and the filesystem afterwards. -/
def finallyRmtrees (fs : List String) (g p : String)
    (pending : Except PyExc Unit) : Except PyExc Unit × List String :=
  match rmtree fs g with
  | Except.error e => (Except.error e, fs)
  | Except.ok fs1 =>
      match rmtree fs1 p with
      | Except.error e => (Except.error e, fs1)
      | Except.ok fs2 => (pending, fs2)

/-- Embedding of `star_nowasp` (tools.py lines 73-93): the
try/except body via `tryRunCatchNZRE`, then the `finally` block via
`finallyRmtrees` on `f'\x7boutprefix\x7d_STARgenome'` and
`f'\x7boutprefix\x7d_STARpass1'`. -/
def star_nowasp (os : List String → SpawnOutcome) (elapsedSeconds : Nat)
    (fs : List String)
    (end1 end2 opref outtemp nthreads genomedir : String) : StarResult :=
  let cmd := ["STAR", "--readFilesIn", end1, end2,
    "--outFileNamePrefix", opref, "--outTmpDir", outtemp,
    "--runThreadN", nthreads, "--genomeDir", genomedir,
    "--twopassMode Basic", "--twopass1readsN -1",
    "--outSAMtype BAM Unsorted", "--quantMode GeneCounts"]
  let t := tryRunCatchNZRE os elapsedSeconds cmd
    s!"problem with {end1}/{end2} input files."
  let fin := finallyRmtrees fs (opref ++ "_STARgenome") (opref ++ "_STARpass1")
    t.result
  ⟨fin.1, t.logs, t.spawnCalls, t.exceptBranchRan, fin.2⟩

/-- The exit code observable by a caller of `run_command`: the third
component of the returned triple when a triple was returned, otherwise
nothing (a `None` return or a raised exception). -/
def runExitCode (r : RunResult) : Option Int :=
  match r.result with
  | Except.ok (some (_, _, rc)) => some rc
  | _ => none

/-- Auxiliary: `Nat.toDigitsCore` only ever prepends characters to its
accumulator. -/
theorem toDigitsCore_extends (b : Nat) :
    ∀ (f n : Nat) (l : List Char), ∃ pre, Nat.toDigitsCore b f n l = pre ++ l := by
  intro f
  induction f with
  | zero => intro n l; exact ⟨[], rfl⟩
  | succ f ih =>
    intro n l
    unfold Nat.toDigitsCore
    by_cases h : n / b = 0
    · simp only [h, if_pos]
      exact ⟨[Nat.digitChar (n % b)], rfl⟩
    · simp only [h, if_neg, if_false]
      obtain ⟨pre, hpre⟩ := ih (n / b) (Nat.digitChar (n % b) :: l)
      exact ⟨pre ++ [Nat.digitChar (n % b)], by simpa using hpre⟩

/-- Auxiliary: with positive fuel, the digit list produced by
`Nat.toDigitsCore` ends (just before the accumulator) with the digit
character of `n % b`. -/
theorem toDigitsCore_last (b : Nat) (f n : Nat) (l : List Char) (hf : 0 < f) :
    ∃ pre, Nat.toDigitsCore b f n l = pre ++ Nat.digitChar (n % b) :: l := by
  obtain ⟨f, rfl⟩ : ∃ g, f = g + 1 := ⟨f - 1, by omega⟩
  unfold Nat.toDigitsCore
  by_cases h : n / b = 0
  · simp only [h, if_pos]
    exact ⟨[], rfl⟩
  · simp only [h, if_neg, if_false]
    obtain ⟨pre, hpre⟩ := toDigitsCore_extends b f (n / b) (Nat.digitChar (n % b) :: l)
    exact ⟨pre, hpre⟩

/-- Auxiliary: among digits below ten only zero prints as the character
zero. -/
theorem digitChar_eq_zero_char (k : Nat) (hk : k < 10) (h : Nat.digitChar k = '0') :
    k = 0 := by
  interval_cases k <;> simp_all [Nat.digitChar]

/-- Auxiliary: a natural number whose decimal representation is the
string "0" is zero. -/
theorem nat_repr_eq_zero (n : Nat) (h : Nat.repr n = "0") : n = 0 := by
  have hdata : Nat.toDigits 10 n = ['0'] := by
    have := congrArg String.data h
    simpa [Nat.repr, List.asString] using this
  unfold Nat.toDigits at hdata
  unfold Nat.toDigitsCore at hdata
  by_cases hdiv : n / 10 = 0
  · simp only [hdiv, if_pos] at hdata
    have hchar : Nat.digitChar (n % 10) = '0' := by injection hdata
    have hmod : n % 10 = 0 :=
      digitChar_eq_zero_char (n % 10) (Nat.mod_lt _ (by omega)) hchar
    omega
  · simp only [hdiv, if_neg, if_false] at hdata
    obtain ⟨pre, hpre⟩ := toDigitsCore_last 10 n (n / 10)
      (Nat.digitChar (n % 10) :: []) (by
        rcases Nat.eq_zero_or_pos n with h0 | h0
        · exact absurd (by simp [h0]) hdiv
        · exact h0)
    rw [hpre] at hdata
    have hlen := congrArg List.length hdata
    simp only [List.length_append, List.length_cons, List.length_nil] at hlen
    omega

/-- Auxiliary: `str(returncode) == '0'` holds exactly for the integer
zero, so the source's string comparison on tools.py line 48 coincides
with an integer comparison. -/
theorem int_toString_eq_zero (i : Int) (h : toString i = "0") : i = 0 := by
  cases i with
  | ofNat m =>
    have hm : Nat.repr m = "0" := h
    simp [nat_repr_eq_zero m hm]
  | negSucc m =>
    exfalso
    have hdat : ("-" ++ Nat.repr (m + 1)).data = "0".data := congrArg String.data h
    simp [String.data_append] at hdat

/-- Concrete spawn oracle for witnesses: every spawn completes with
exit code 0 and merged output text "hello" plus newline. -/
def osEcho : List String → SpawnOutcome :=
  fun _ => SpawnOutcome.completed 0 "hello\n"

/-- Concrete spawn oracle for witnesses: every spawn completes with
exit code 1. -/
def osFailOne : List String → SpawnOutcome :=
  fun _ => SpawnOutcome.completed 1 "boom"

/-- Concrete spawn oracle for witnesses: every spawn fails to launch
(executable not found). -/
def osMissing : List String → SpawnOutcome :=
  fun _ => SpawnOutcome.launchFailure

/-- Auxiliary: the integer zero prints as the string "0". -/
theorem int_toString_zero : toString (0 : Int) = "0" := rfl

/-- C1: for every argument vector whose child process exits with code 0,
`run_command` returns a triple whose third component (the exit-code
field) equals 0. -/
theorem run_command_zero_exit_returns_zero_code
    (os : List String → SpawnOutcome) (el : Nat) (cmd : List String) (out : String)
    (h : os cmd = SpawnOutcome.completed 0 out) :
    ∃ e o, (run_command os el cmd).result = Except.ok (some (e, o, 0)) := by
  refine ⟨none, some out, ?_⟩
  simp [run_command, h, int_toString_zero]

/-- Witness for C1 at a concrete input. -/
theorem run_command_zero_exit_returns_zero_code_witness :
    osEcho ["echo", "hello"] = SpawnOutcome.completed 0 "hello\n" ∧
    ∃ e o, (run_command osEcho 0 ["echo", "hello"]).result = Except.ok (some (e, o, 0)) :=
  ⟨rfl, run_command_zero_exit_returns_zero_code osEcho 0 ["echo", "hello"] "hello\n" rfl⟩

/-- Auxiliary: converting a string to a string is the identity. -/
theorem string_toString (s : String) : toString s = s := rfl

/-- C2: for every argument vector whose child process exits with a
non-zero code, `run_command` logs a warning naming the failed command
(the space-joined command string) and returns `None` — no exception is
raised and no explicit failure signal reaches the caller. -/
theorem run_command_nonzero_warns_and_returns_none
    (os : List String → SpawnOutcome) (el : Nat) (cmd : List String)
    (rc : Int) (out : String)
    (h : os cmd = SpawnOutcome.completed rc out) (hrc : rc ≠ 0) :
    (run_command os el cmd).result = Except.ok none ∧
    LogMsg.mk LogLevel.warning
        ("non-zero return code for cmd " ++ String.intercalate " " cmd) ∈
      (run_command os el cmd).logs := by
  have hts : toString rc ≠ "0" := fun hh => hrc (int_toString_eq_zero rc hh)
  constructor
  · simp [run_command, h, hts]
  · simp [run_command, h, hts, string_toString]

/-- Witness for C2 at a concrete input. -/
theorem run_command_nonzero_warns_and_returns_none_witness :
    osFailOne ["false"] = SpawnOutcome.completed 1 "boom" ∧ (1 : Int) ≠ 0 ∧
    ((run_command osFailOne 0 ["false"]).result = Except.ok none ∧
      LogMsg.mk LogLevel.warning "non-zero return code for cmd false" ∈
        (run_command osFailOne 0 ["false"]).logs) :=
  ⟨rfl, by decide,
    run_command_nonzero_warns_and_returns_none osFailOne 0 ["false"] 1 "boom"
      rfl (by decide)⟩

/-- C3: for every argument vector whose first token does not resolve to
an executable, `run_command` surfaces the launch failure as a raised
`FileNotFoundError` propagating to the caller — an exception, not a
returned value — which is distinct in kind from the non-zero-exit
outcome (a plain `None` return). -/
theorem run_command_launch_failure_raises
    (os : List String → SpawnOutcome) (el : Nat) (cmd : List String)
    (h : os cmd = SpawnOutcome.launchFailure) :
    (run_command os el cmd).result = Except.error PyExc.fileNotFound ∧
    ∀ v, (run_command os el cmd).result ≠ Except.ok v := by
  constructor
  · simp [run_command, h]
  · intro v
    simp [run_command, h]

/-- Witness for C3 at a concrete input. -/
theorem run_command_launch_failure_raises_witness :
    osMissing ["no-such-tool"] = SpawnOutcome.launchFailure ∧
    ((run_command osMissing 0 ["no-such-tool"]).result
        = Except.error PyExc.fileNotFound ∧
      ∀ v, (run_command osMissing 0 ["no-such-tool"]).result ≠ Except.ok v) :=
  ⟨rfl, run_command_launch_failure_raises osMissing 0 ["no-such-tool"] rfl⟩

/-- Auxiliary: a `run_command` call either raises `FileNotFoundError`
(launch failure) or returns normally — these are its only outcomes. -/
theorem run_command_result_cases
    (os : List String → SpawnOutcome) (el : Nat) (cmd : List String) :
    (run_command os el cmd).result = Except.error PyExc.fileNotFound ∨
    ∃ v, (run_command os el cmd).result = Except.ok v := by
  cases h : os cmd with
  | launchFailure =>
    left
    simp [run_command, h]
  | completed rc out =>
    right
    by_cases hts : toString rc = "0"
    · exact ⟨some (none, some out, rc), by simp [run_command, h, hts]⟩
    · exact ⟨none, by simp [run_command, h, hts]⟩

/-- Auxiliary: the `except NonZeroReturnException` handler in the
shared wrapper pattern never executes, because `run_command` never
raises that exception. -/
theorem tryRunCatchNZRE_no_handler
    (os : List String → SpawnOutcome) (el : Nat) (cmd : List String)
    (msg : String) :
    (tryRunCatchNZRE os el cmd msg).exceptBranchRan = false := by
  rcases run_command_result_cases os el cmd with h | ⟨v, h⟩ <;>
    simp [tryRunCatchNZRE, h]

/-- Auxiliary: the handler flag of `star_nowasp` equals that of its
try/except body, in every cleanup branch. -/
theorem star_nowasp_no_handler
    (os : List String → SpawnOutcome) (el : Nat) (fs : List String)
    (a b c d e f : String) :
    (star_nowasp os el fs a b c d e f).exceptBranchRan = false := by
  exact tryRunCatchNZRE_no_handler os el _ _

/-- C4: `run_command` never raises `NonZeroReturnException` for any
input, so the `except NonZeroReturnException` handler in every
tool-specific wrapper (fasterq_dump, star_nowasp, samtools_sort,
samtools_index, samtools_view_region, samtools_view_quality, gatk_arrg,
gatk_md, gatk_sncr, gatk_htc) is unreachable and never executes. -/
theorem nonzero_return_handlers_unreachable :
    (∀ os el cmd,
      (run_command os el cmd).result ≠ Except.error PyExc.nonZeroReturn) ∧
    (∀ os el a b c d, (fasterq_dump os el a b c d).exceptBranchRan = false) ∧
    (∀ os el fs a b c d e f,
      (star_nowasp os el fs a b c d e f).exceptBranchRan = false) ∧
    (∀ os el a b c d, (samtools_sort os el a b c d).exceptBranchRan = false) ∧
    (∀ os el a b, (samtools_index os el a b).exceptBranchRan = false) ∧
    (∀ os el a b c, (samtools_view_region os el a b c).exceptBranchRan = false) ∧
    (∀ os el a b c, (samtools_view_quality os el a b c).exceptBranchRan = false) ∧
    (∀ os el a b, (gatk_arrg os el a b).exceptBranchRan = false) ∧
    (∀ os el a b c, (gatk_md os el a b c).exceptBranchRan = false) ∧
    (∀ os el a b c, (gatk_sncr os el a b c).exceptBranchRan = false) ∧
    (∀ os el a b c d, (gatk_htc os el a b c d).exceptBranchRan = false) := by
  refine ⟨?_, ?_, ?_, ?_, ?_, ?_, ?_, ?_, ?_, ?_, ?_⟩
  · intro os el cmd h
    rcases run_command_result_cases os el cmd with h1 | ⟨v, h1⟩ <;>
      rw [h1] at h <;> simp at h
  · intro os el a b c d
    exact tryRunCatchNZRE_no_handler os el _ _
  · intro os el fs a b c d e f
    exact star_nowasp_no_handler os el fs a b c d e f
  · intro os el a b c d
    exact tryRunCatchNZRE_no_handler os el _ _
  · intro os el a b
    exact tryRunCatchNZRE_no_handler os el _ _
  · intro os el a b c
    exact tryRunCatchNZRE_no_handler os el _ _
  · intro os el a b c
    exact tryRunCatchNZRE_no_handler os el _ _
  · intro os el a b
    exact tryRunCatchNZRE_no_handler os el _ _
  · intro os el a b c
    exact tryRunCatchNZRE_no_handler os el _ _
  · intro os el a b c
    exact tryRunCatchNZRE_no_handler os el _ _
  · intro os el a b c d
    exact tryRunCatchNZRE_no_handler os el _ _

/-- Auxiliary: the filesystem effect of the `finally` cleanup does not
depend on the pending outcome of the try/except part. -/
theorem finallyRmtrees_snd_indep (fs : List String) (g p : String)
    (a b : Except PyExc Unit) :
    (finallyRmtrees fs g p a).2 = (finallyRmtrees fs g p b).2 := by
  unfold finallyRmtrees rmtree
  by_cases h1 : g ∈ fs
  · simp only [h1, if_pos]
    by_cases h2 : p ∈ fs.erase g <;> simp [h2]
  · simp [h1]

/-- Auxiliary: when the first cleanup directory is absent, the cleanup
raises `FileNotFoundError` and leaves the filesystem unchanged. -/
theorem finallyRmtrees_first_absent (fs : List String) (g p : String)
    (pending : Except PyExc Unit) (h : g ∉ fs) :
    finallyRmtrees fs g p pending = (Except.error PyExc.fileNotFound, fs) := by
  simp [finallyRmtrees, rmtree, h]

/-- Auxiliary: when the first cleanup directory exists but the second is
absent, the cleanup removes the first and raises `FileNotFoundError`. -/
theorem finallyRmtrees_second_absent (fs : List String) (g p : String)
    (pending : Except PyExc Unit) (h1 : g ∈ fs) (h2 : p ∉ fs.erase g) :
    finallyRmtrees fs g p pending = (Except.error PyExc.fileNotFound, fs.erase g) := by
  simp [finallyRmtrees, rmtree, h1, h2]

/-- Auxiliary: when both cleanup directories exist, the cleanup removes
both and the pending outcome stands. -/
theorem finallyRmtrees_both_present (fs : List String) (g p : String)
    (pending : Except PyExc Unit) (h1 : g ∈ fs) (h2 : p ∈ fs.erase g) :
    finallyRmtrees fs g p pending = (pending, (fs.erase g).erase p) := by
  simp [finallyRmtrees, rmtree, h1, h2]

/-- C5: the cleanup step of `star_nowasp` (removal of the two `_STARgenome`
and `_STARpass1` temporary directories) runs unconditionally after every
invocation — its filesystem effect is the same whatever the primary
invocation did, including when it failed — and it raises
`FileNotFoundError` when an expected directory is absent; when both
directories exist they are removed. -/
theorem star_nowasp_cleanup_unconditional
    (os : List String → SpawnOutcome) (el : Nat) (fs : List String)
    (end1 end2 opref outtemp nthreads genomedir : String) :
    (∀ os2 el2,
      (star_nowasp os2 el2 fs end1 end2 opref outtemp nthreads genomedir).fs
        = (star_nowasp os el fs end1 end2 opref outtemp nthreads genomedir).fs) ∧
    ((opref ++ "_STARgenome") ∉ fs →
      (star_nowasp os el fs end1 end2 opref outtemp nthreads genomedir).result
        = Except.error PyExc.fileNotFound) ∧
    ((opref ++ "_STARgenome") ∈ fs →
      (opref ++ "_STARpass1") ∉ fs.erase (opref ++ "_STARgenome") →
      (star_nowasp os el fs end1 end2 opref outtemp nthreads genomedir).result
        = Except.error PyExc.fileNotFound) ∧
    ((opref ++ "_STARgenome") ∈ fs →
      (opref ++ "_STARpass1") ∈ fs.erase (opref ++ "_STARgenome") →
      (star_nowasp os el fs end1 end2 opref outtemp nthreads genomedir).fs
        = (fs.erase (opref ++ "_STARgenome")).erase (opref ++ "_STARpass1")) := by
  refine ⟨?_, ?_, ?_, ?_⟩
  · intro os2 el2
    exact finallyRmtrees_snd_indep fs _ _ _ _
  · intro h
    show (finallyRmtrees fs _ _ _).1 = _
    rw [finallyRmtrees_first_absent _ _ _ _ h]
  · intro h1 h2
    show (finallyRmtrees fs _ _ _).1 = _
    rw [finallyRmtrees_second_absent _ _ _ _ h1 h2]
  · intro h1 h2
    show (finallyRmtrees fs _ _ _).2 = _
    rw [finallyRmtrees_both_present _ _ _ _ h1 h2]

/-- Witness for C5 at concrete inputs: the filesystem effect is the same
under a failing and a succeeding primary invocation; a missing first
directory raises; a missing second directory raises; both directories
present are both removed. -/
theorem star_nowasp_cleanup_unconditional_witness :
    ((star_nowasp osMissing 5 ["x_STARgenome", "x_STARpass1"]
        "a.fq" "b.fq" "x" "tmp" "4" "gd").fs
      = (star_nowasp osEcho 0 ["x_STARgenome", "x_STARpass1"]
        "a.fq" "b.fq" "x" "tmp" "4" "gd").fs) ∧
    ((star_nowasp osEcho 0 [] "a.fq" "b.fq" "x" "tmp" "4" "gd").result
      = Except.error PyExc.fileNotFound) ∧
    ((star_nowasp osEcho 0 ["y_STARgenome"] "a.fq" "b.fq" "y" "tmp" "4" "gd").result
      = Except.error PyExc.fileNotFound) ∧
    ((star_nowasp osEcho 0 ["x_STARgenome", "x_STARpass1"]
        "a.fq" "b.fq" "x" "tmp" "4" "gd").fs
      = ((["x_STARgenome", "x_STARpass1"].erase ("x" ++ "_STARgenome")).erase
          ("x" ++ "_STARpass1"))) :=
  ⟨(star_nowasp_cleanup_unconditional osEcho 0 ["x_STARgenome", "x_STARpass1"]
      "a.fq" "b.fq" "x" "tmp" "4" "gd").1 osMissing 5,
   (star_nowasp_cleanup_unconditional osEcho 0 []
      "a.fq" "b.fq" "x" "tmp" "4" "gd").2.1 (by decide),
   (star_nowasp_cleanup_unconditional osEcho 0 ["y_STARgenome"]
      "a.fq" "b.fq" "y" "tmp" "4" "gd").2.2.1 (by decide) (by decide),
   (star_nowasp_cleanup_unconditional osEcho 0 ["x_STARgenome", "x_STARpass1"]
      "a.fq" "b.fq" "x" "tmp" "4" "gd").2.2.2 (by decide) (by decide)⟩

/-- C6 evidence: invoked on a filesystem where the expected cleanup
directory does not exist, `star_nowasp` does crash — the
`FileNotFoundError` raised by `shutil.rmtree` propagates unguarded out
of the wrapper, even though the primary invocation succeeded. -/
theorem star_nowasp_crashes_when_cleanup_dir_missing :
    (star_nowasp osEcho 0 [] "r1.fq" "r2.fq" "out" "tmp" "4" "genome").result
      = Except.error PyExc.fileNotFound := by decide

/-- C7: for every argument vector, `run_command` hands exactly the
discrete token list to the child-process launch, unchanged; the sole
spawn performed is on `cmd` itself (the space-joined command string
appears only in log messages, never as the invocation). -/
theorem run_command_spawns_token_list
    (os : List String → SpawnOutcome) (el : Nat) (cmd : List String) :
    (run_command os el cmd).spawnCalls = [cmd] := by
  cases h : os cmd with
  | launchFailure => simp [run_command, h]
  | completed rc out =>
    by_cases hts : toString rc = "0" <;> simp [run_command, h, hts]

/-- C8: `run_command` launches the child with stdout and stderr merged
into one captured text stream, so when the child prints `txt` (on
either stream) and exits 0, the returned result is exactly the triple
with no separate stderr text, captured output `txt`, and exit code 0. -/
theorem run_command_captures_merged_output
    (os : List String → SpawnOutcome) (el : Nat) (cmd : List String)
    (txt : String) (h : os cmd = SpawnOutcome.completed 0 txt) :
    (run_command os el cmd).result = Except.ok (some (none, some txt, 0)) := by
  simp [run_command, h, int_toString_zero]

/-- Witness for C8 at a concrete input. -/
theorem run_command_captures_merged_output_witness :
    osEcho ["echo", "hello"] = SpawnOutcome.completed 0 "hello\n" ∧
    (run_command osEcho 0 ["echo", "hello"]).result
      = Except.ok (some (none, some "hello\n", 0)) :=
  ⟨rfl, run_command_captures_merged_output osEcho 0 ["echo", "hello"] "hello\n" rfl⟩

/-- C9: two `run_command` invocations with identical argument vectors
observe the same exit code whenever the operating system reacts to
that vector identically both times (deterministic child, identical
filesystem state) — even if the two runs take different wall-clock
times. -/
theorem run_command_deterministic
    (os1 os2 : List String → SpawnOutcome) (el1 el2 : Nat) (cmd : List String)
    (h : os1 cmd = os2 cmd) :
    runExitCode (run_command os1 el1 cmd) = runExitCode (run_command os2 el2 cmd) := by
  cases h2 : os2 cmd with
  | launchFailure =>
    have h1 : os1 cmd = SpawnOutcome.launchFailure := h.trans h2
    simp [run_command, runExitCode, h1, h2]
  | completed rc out =>
    have h1 : os1 cmd = SpawnOutcome.completed rc out := h.trans h2
    by_cases hts : toString rc = "0" <;>
      simp [run_command, runExitCode, h1, h2, hts]

/-- Witness for C9 at a concrete input: same oracle answer, different
elapsed times. -/
theorem run_command_deterministic_witness :
    osEcho ["date"] = osEcho ["date"] ∧
    runExitCode (run_command osEcho 3 ["date"])
      = runExitCode (run_command osEcho 7 ["date"]) :=
  ⟨rfl, run_command_deterministic osEcho osEcho 3 7 ["date"] rfl⟩

/-- C10: whenever `run_command` returns a triple (the success path),
its first component — the captured error-stream text `cp.stderr` — is
`None`, for every argument vector, because stderr was redirected into
stdout before capture. -/
theorem run_command_success_stderr_none
    (os : List String → SpawnOutcome) (el : Nat) (cmd : List String)
    (e o : Option String) (rc : Int)
    (h : (run_command os el cmd).result = Except.ok (some (e, o, rc))) :
    e = none := by
  cases hc : os cmd with
  | launchFailure => simp [run_command, hc] at h
  | completed rc2 out =>
    by_cases hts : toString rc2 = "0" <;> simp [run_command, hc, hts] at h
    exact h.1.symm

/-- Witness for C10 at a concrete input. -/
theorem run_command_success_stderr_none_witness :
    (run_command osEcho 0 ["echo", "hello"]).result
      = Except.ok (some (none, some "hello\n", 0)) ∧
    (none : Option String) = none :=
  ⟨by decide,
   run_command_success_stderr_none osEcho 0 ["echo", "hello"]
     none (some "hello\n") 0 (by decide)⟩

/-- Witness for C4 at concrete inputs: a sample instantiation of each
part of the conjunction. -/
theorem nonzero_return_handlers_unreachable_witness :
    ((run_command osFailOne 0 ["false"]).result
        ≠ Except.error PyExc.nonZeroReturn) ∧
    (fasterq_dump osFailOne 0 "in.sra" "out" "4" "tmp").exceptBranchRan = false ∧
    (star_nowasp osFailOne 0 ["x_STARgenome", "x_STARpass1"]
        "a.fq" "b.fq" "x" "tmp" "4" "gd").exceptBranchRan = false ∧
    (samtools_sort osFailOne 0 "in.bam" "out.bam" "4000" "4").exceptBranchRan = false ∧
    (samtools_index osFailOne 0 "in.bam" "4").exceptBranchRan = false ∧
    (samtools_view_region osFailOne 0 "in.bam" "out.bam" "chrX").exceptBranchRan = false ∧
    (samtools_view_quality osFailOne 0 "in.bam" "out.bam" "60").exceptBranchRan = false ∧
    (gatk_arrg osFailOne 0 "in.bam" "out.bam").exceptBranchRan = false ∧
    (gatk_md osFailOne 0 "in.bam" "out.bam" "m.txt").exceptBranchRan = false ∧
    (gatk_sncr osFailOne 0 "in.bam" "out.bam" "g.fa").exceptBranchRan = false ∧
    (gatk_htc osFailOne 0 "in.bam" "out.vcf" "g.fa" "chrX").exceptBranchRan = false :=
  ⟨nonzero_return_handlers_unreachable.1 osFailOne 0 ["false"],
   nonzero_return_handlers_unreachable.2.1 osFailOne 0 "in.sra" "out" "4" "tmp",
   nonzero_return_handlers_unreachable.2.2.1 osFailOne 0
     ["x_STARgenome", "x_STARpass1"] "a.fq" "b.fq" "x" "tmp" "4" "gd",
   nonzero_return_handlers_unreachable.2.2.2.1 osFailOne 0 "in.bam" "out.bam" "4000" "4",
   nonzero_return_handlers_unreachable.2.2.2.2.1 osFailOne 0 "in.bam" "4",
   nonzero_return_handlers_unreachable.2.2.2.2.2.1 osFailOne 0 "in.bam" "out.bam" "chrX",
   nonzero_return_handlers_unreachable.2.2.2.2.2.2.1 osFailOne 0 "in.bam" "out.bam" "60",
   nonzero_return_handlers_unreachable.2.2.2.2.2.2.2.1 osFailOne 0 "in.bam" "out.bam",
   nonzero_return_handlers_unreachable.2.2.2.2.2.2.2.2.1 osFailOne 0 "in.bam" "out.bam" "m.txt",
   nonzero_return_handlers_unreachable.2.2.2.2.2.2.2.2.2.1 osFailOne 0 "in.bam" "out.bam" "g.fa",
   nonzero_return_handlers_unreachable.2.2.2.2.2.2.2.2.2.2 osFailOne 0 "in.bam" "out.vcf" "g.fa" "chrX"⟩

/-- Witness for C7 at a concrete input. -/
theorem run_command_spawns_token_list_witness :
    (run_command osEcho 0 ["echo", "hello"]).spawnCalls = [["echo", "hello"]] :=
  run_command_spawns_token_list osEcho 0 ["echo", "hello"]
